import Mathlib

/-
Verification of the ANOVA-based anomaly-detection app (`src/app.py`).

The app is a single linear script.  We shallowly embed the parts of it that
carry algorithmic content:

* column auto-detection (app.py lines 53-70),
* the grouping expression feeding the ANOVA test (app.py line 86),
* the control flow of steps 3-7 (group-count guard, significance branches,
  Tukey gating and exception handling; app.py lines 86-151),
* the inputs handed to the Tukey post-hoc call (app.py line 128).

Numeric cell values are modelled as `Option ℚ` (`none` is a missing entry,
pandas `NaN`); categorical cells as `Option String`.  Python's float literal
`0.05` is modelled as the exact rational `1/20`.

`scipy.stats.f_oneway` is external library code; it is modelled from the
spec (section 4.2) below, see `f_oneway`.  `pairwise_tukeyhsd` is likewise
external; the script only needs its success-or-failure behaviour, so the
pipeline is parametrised over it.
-/

namespace AnovaApp

/-- A dataset row restricted to the two columns the analysis uses:
the selected label (categorical) cell and the selected value (numeric)
cell, each possibly missing. -/
structure Row where
  label : Option String
  value : Option ℚ
deriving DecidableEq

/-- The distinct non-missing labels of the rows: the keys enumerated by
`df.groupby(label_col)` on app.py line 86.  pandas drops rows whose key is
missing and enumerates keys in sorted order; we enumerate the same key set
in the deterministic order produced by `List.dedup`.  No verified property
depends on the enumeration order. -/
def groupKeys (rows : List Row) : List String :=
  (rows.filterMap Row.label).dedup

/-- The rows of one groupby partition: the sub-dataframe `g` for key `k`
on app.py line 86 (all rows whose label equals `k`, missing values of the
value column still included). -/
def rowsFor (rows : List Row) (k : String) : List Row :=
  rows.filter fun r => r.label = some k

/-- The expression `g[value_col].dropna()` on app.py line 86: the
non-missing numeric observations of partition `k`. -/
def valuesFor (rows : List Row) (k : String) : List ℚ :=
  (rowsFor rows k).filterMap Row.value

/-- app.py line 86:
`groups = [g[value_col].dropna() for _, g in df.groupby(label_col) if len(g) > 1]`.
Note the guard `len(g) > 1` tests the raw partition size, before
`dropna()` removes missing values. -/
def groups (rows : List Row) : List (List ℚ) :=
  (groupKeys rows).filterMap fun k =>
    if 1 < (rowsFor rows k).length then some (valuesFor rows k) else none

/-- app.py line 128, argument `endog=df[value_col]`: the Tukey call receives
the full, unfiltered value column. -/
def tukeyEndog (rows : List Row) : List (Option ℚ) :=
  rows.map Row.value

/-- app.py line 128, argument `groups=df[label_col]`: the Tukey call receives
the full, unfiltered label column. -/
def tukeyGroupLabels (rows : List Row) : List (Option String) :=
  rows.map Row.label

/-! Column auto-detection, app.py lines 53-70. -/

/-- A categorical column of the dataframe (an entry of `categorical_cols`,
app.py line 54). -/
structure CatColumn where
  name : String
  data : List (Option String)
deriving DecidableEq

/-- A numeric column of the dataframe (an entry of `numeric_cols`,
app.py line 53). -/
structure NumColumn where
  name : String
  data : List (Option ℚ)
deriving DecidableEq

/-- pandas `Series.nunique()`: the number of distinct non-missing entries
(missing entries are dropped before counting). -/
def nunique (d : List (Option String)) : ℕ :=
  (d.filterMap id).dedup.length

/-- The admission test of app.py line 60:
`df[col].nunique() > 1 and df[col].nunique() < 20`. -/
def labelAdmissible (c : CatColumn) : Bool :=
  decide (1 < nunique c.data) && decide (nunique c.data < 20)

/-- app.py lines 59-62: the loop with `break` selects the first categorical
column passing `labelAdmissible`. -/
def auto_label_col (cols : List CatColumn) : Option CatColumn :=
  cols.find? labelAdmissible

/-- pandas `Series.notna().sum()`: the number of non-missing entries. -/
def notnaSum (d : List (Option ℚ)) : ℕ :=
  (d.filterMap id).length

/-- The admission test of app.py line 65: `df[col].notna().sum() > 10`. -/
def valueAdmissible (c : NumColumn) : Bool :=
  decide (10 < notnaSum c.data)

/-- app.py lines 64-67: the loop with `break` selects the first numeric
column passing `valueAdmissible`. -/
def auto_value_col (cols : List NumColumn) : Option NumColumn :=
  cols.find? valueAdmissible

/-- app.py line 69: `if not auto_label_col or not auto_value_col:` shows the
manual-selection warning.  (Python also treats a column named by the empty
string as falsy; column names are assumed non-empty.) -/
def autoDetectWarning (lab : Option CatColumn) (val : Option NumColumn) : Bool :=
  lab.isNone || val.isNone

/-! One-way ANOVA.

Modelled from the spec: `scipy.stats.f_oneway` (imported on app.py line 4
and called on line 92) is external library code not present in the
repository; the definitions below follow the algorithm of spec section 4.2
(grand mean, between-group and within-group sums of squares, degrees of
freedom, sentinel for zero within-group variance) and its error conditions
(fewer than 2 groups; non-positive within-group degrees of freedom).
The upper-tail F-distribution probability is not algebraic, so `f_oneway`
is parametrised by it (`fcdf`); no verified property depends on its values. -/

/-- Total number of pooled observations across all groups. -/
def totalCount (gs : List (List ℚ)) : ℕ :=
  (gs.map List.length).sum

/-- Sum of all pooled observations. -/
def totalSum (gs : List (List ℚ)) : ℚ :=
  (gs.map List.sum).sum

/-- Mean of one group (spec 4.2: group mean). -/
def groupMean (g : List ℚ) : ℚ :=
  g.sum / g.length

/-- Grand mean over all pooled observations (spec 4.2 step 1). -/
def grandMean (gs : List (List ℚ)) : ℚ :=
  totalSum gs / totalCount gs

/-- Between-group sum of squares (spec 4.2 step 2). -/
def betweenSS (gs : List (List ℚ)) : ℚ :=
  (gs.map fun g => (g.length : ℚ) * (groupMean g - grandMean gs) ^ 2).sum

/-- Within-group sum of squares (spec 4.2 step 3). -/
def withinSS (gs : List (List ℚ)) : ℚ :=
  (gs.map fun g => (g.map fun x => (x - groupMean g) ^ 2).sum).sum

/-- Failure conditions of the evaluator (spec 4.2 and section 7):
fewer than 2 groups, or an undefined variance ratio. -/
inductive AnovaError where
  | insufficientGroups
  | degenerateVariance
deriving DecidableEq

deriving instance DecidableEq for Except

/-- Modelled from the spec: one-way ANOVA as specified in section 4.2 for
the external `scipy.stats.f_oneway`.  Returns the F-statistic
(`none` encodes the sentinel +infinity) and the p-value.  `fcdf dfB dfW F`
stands for the upper-tail F-distribution probability (spec 4.2 step 6). -/
def f_oneway (fcdf : ℕ → ℕ → ℚ → ℚ) (gs : List (List ℚ)) :
    Except AnovaError (Option ℚ × ℚ) :=
  if gs.length < 2 then .error .insufficientGroups
  else if totalCount gs ≤ gs.length then .error .degenerateVariance
  else if withinSS gs = 0 then
    if 0 < betweenSS gs then .ok (none, 0) else .error .degenerateVariance
  else
    let F := (betweenSS gs / ((gs.length : ℚ) - 1)) /
      (withinSS gs / ((totalCount gs : ℚ) - (gs.length : ℚ)))
    .ok (some F, fcdf (gs.length - 1) (totalCount gs - gs.length) F)

/-! The script pipeline, app.py steps 3-7 (lines 86-151).

The messages the script displays are modelled as an output trace; `st.stop()`
on line 90 ends the script, so nothing follows the warning in that branch.
The pipeline is parametrised over the ANOVA backend (`anova`, scipy's
`f_oneway` returning an F-statistic and a p-value) and the Tukey backend
(`tukey`, statsmodels' `pairwise_tukeyhsd`; `Except.error` models a raised
exception, caught by the `try/except` of lines 127-132). -/

/-- One displayed message of steps 3-7.  `τ` is the type of a Tukey summary
(app.py line 129). -/
inductive Msg (τ : Type) where
  /-- app.py line 89 warning, followed by `st.stop()` on line 90. -/
  | warnNotEnoughGroups
  /-- app.py line 94. -/
  | fStatLine (f : ℚ)
  /-- app.py line 95. -/
  | pValueLine (p : ℚ)
  /-- app.py line 98 (`st.error`, significant differences detected). -/
  | sigDetected
  /-- app.py line 100 (`st.success`, no significant variance). -/
  | noSigDetected
  /-- app.py line 129, the Tukey summary table. -/
  | tukeySummary (t : τ)
  /-- app.py line 132 warning: Tukey test could not be computed. -/
  | tukeyFailed
  /-- app.py line 134 (`st.info`, post-hoc not required). -/
  | tukeyNotRequired
  /-- app.py lines 142-146, interpretation of a significant result. -/
  | interpSig (p : ℚ)
  /-- app.py lines 148-151, interpretation of a non-significant result. -/
  | interpNoSig (p : ℚ)
deriving DecidableEq

/-- app.py steps 3-7 (lines 86-151): the trace of displayed messages.
All three significance tests of the script (lines 97, 125 and 141) are the
comparison `p_value < 0.05`, embedded as `p < 1/20`. -/
def script {τ : Type} (anova : List (List ℚ) → ℚ × ℚ)
    (tukey : List (Option ℚ) → List (Option String) → Except String τ)
    (rows : List Row) : List (Msg τ) :=
  let gs := groups rows
  if gs.length < 2 then
    [Msg.warnNotEnoughGroups]
  else
    let fp := anova gs
    [Msg.fStatLine fp.1, Msg.pValueLine fp.2] ++
    (if fp.2 < 1/20 then [Msg.sigDetected] else [Msg.noSigDetected]) ++
    (if fp.2 < 1/20 then
      match tukey (tukeyEndog rows) (tukeyGroupLabels rows) with
      | .ok t => [Msg.tukeySummary t]
      | .error _ => [Msg.tukeyFailed]
    else [Msg.tukeyNotRequired]) ++
    (if fp.2 < 1/20 then [Msg.interpSig fp.2] else [Msg.interpNoSig fp.2])

/-! Concrete datasets used in counterexamples and witnesses. -/

/-- Four rows, two label groups; group `A` has two raw rows but only one
non-missing value. -/
def exC1 : List Row :=
  [⟨some "A", some 1⟩, ⟨some "A", none⟩, ⟨some "B", some 2⟩, ⟨some "B", some 3⟩]

/-- A categorical column with exactly 20 distinct non-missing values. -/
def col20 : CatColumn :=
  ⟨"cat20",
    [some "a", some "b", some "c", some "d", some "e", some "f", some "g",
     some "h", some "i", some "j", some "k", some "l", some "m", some "n",
     some "o", some "p", some "q", some "r", some "s", some "t"]⟩

/-- Five rows, labels `A`, `B` of size 2 and a singleton label `C`. -/
def exC3 : List Row :=
  [⟨some "A", some 1⟩, ⟨some "A", some 2⟩, ⟨some "B", some 3⟩,
   ⟨some "B", some 4⟩, ⟨some "C", some 5⟩]

/-- C1, counterexample: on `exC1` the list handed to the ANOVA call has two
groups (so the test does run), yet its first group has a single non-missing
observation — the `len(g) > 1` guard of app.py line 86 runs on the raw
partition, before `dropna()`. -/
theorem groups_size_filter_before_dropna_cex :
    2 ≤ (groups exC1).length ∧ ¬ ∀ g ∈ groups exC1, 2 ≤ g.length := by
  decide

/-- C1, amended: every group handed to the ANOVA call is the non-missing
part of a raw groupby partition that has at least 2 rows; the group itself
may have fewer than 2 non-missing observations. -/
theorem groups_raw_size_ge_two (rows : List Row) (g : List ℚ)
    (hg : g ∈ groups rows) :
    ∃ k, 2 ≤ (rowsFor rows k).length ∧ g = valuesFor rows k := by
  simp only [groups, List.mem_filterMap] at hg
  obtain ⟨k, -, hstep⟩ := hg
  by_cases h : 1 < (rowsFor rows k).length
  · refine ⟨k, by omega, ?_⟩
    simp only [if_pos h, Option.some.injEq] at hstep
    exact hstep.symm
  · simp [if_neg h] at hstep

/-- C1, witness for `groups_raw_size_ge_two` at the dataset `exC1`. -/
theorem groups_raw_size_ge_two_witness :
    ∃ k, 2 ≤ (rowsFor exC1 k).length ∧ [(1 : ℚ)] = valuesFor exC1 k :=
  groups_raw_size_ge_two exC1 [1] (by decide)

/-- C2, counterexample: `col20` has exactly 20 distinct values — inside the
claimed closed admissibility interval [2, 20] — yet the pre-filter of
app.py line 60 rejects it and the auto-detection skips it. -/
theorem labelAdmissible_twenty_cex :
    (2 ≤ nunique col20.data ∧ nunique col20.data ≤ 20) ∧
      labelAdmissible col20 = false ∧ auto_label_col [col20] = none := by
  decide

/-- C2, amended: the pre-filter of app.py line 60 admits a categorical
column if and only if its distinct-value count lies in the closed interval
[2, 19] (the test is `nunique > 1 and nunique < 20`, so a count of exactly
20 is rejected). -/
theorem labelAdmissible_iff_two_to_nineteen (c : CatColumn) :
    labelAdmissible c = true ↔ 2 ≤ nunique c.data ∧ nunique c.data ≤ 19 := by
  simp only [labelAdmissible, Bool.and_eq_true, decide_eq_true_eq]
  omega

/-- C10: the auto-selected value column is the first numeric column, in
dataset column order, with strictly more than 10 non-missing entries
(app.py lines 64-67); when no numeric column qualifies, no value column is
auto-selected and the manual-selection warning of line 69 is shown. -/
theorem auto_value_col_spec (cols : List NumColumn) :
    (∀ c, auto_value_col cols = some c →
      10 < notnaSum c.data ∧
        ∃ pre post, cols = pre ++ c :: post ∧
          ∀ d ∈ pre, notnaSum d.data ≤ 10) ∧
    (auto_value_col cols = none ↔ ∀ c ∈ cols, notnaSum c.data ≤ 10) ∧
    (∀ lab, autoDetectWarning lab none = true) := by
  refine ⟨?_, ?_, fun lab => by simp [autoDetectWarning]⟩
  · intro c hc
    rw [auto_value_col, List.find?_eq_some] at hc
    obtain ⟨hadm, pre, post, hsplit, hpre⟩ := hc
    refine ⟨by simpa [valueAdmissible] using hadm, pre, post, hsplit, ?_⟩
    intro d hd
    have := hpre d hd
    simp only [valueAdmissible, Bool.not_eq_true', decide_eq_false_iff_not,
      not_lt] at this
    exact this
  · rw [auto_value_col, List.find?_eq_none]
    constructor
    · intro hc c hcc
      have := hc c hcc
      simp only [valueAdmissible, decide_eq_true_eq, not_lt] at this
      exact this
    · intro hc c hcc
      simp only [valueAdmissible, Bool.not_eq_true, decide_eq_false_iff_not,
        not_lt]
      exact hc c hcc

/-- A numeric column with 5 non-missing entries. -/
def numSmall : NumColumn := ⟨"small", [some 1, some 2, some 3, some 4, some 5]⟩

/-- A numeric column with 11 non-missing entries. -/
def numBig : NumColumn :=
  ⟨"big", [some 1, some 2, some 3, some 4, some 5, some 6, some 7, some 8,
           some 9, some 10, some 11]⟩

/-- C10, witness for `auto_value_col_spec`: on `[numSmall, numBig]` the
auto-detection skips the 5-entry column and selects the 11-entry one. -/
theorem auto_value_col_spec_witness :
    10 < notnaSum numBig.data ∧
      ∃ pre post, [numSmall, numBig] = pre ++ numBig :: post ∧
        ∀ d ∈ pre, notnaSum d.data ≤ 10 :=
  (auto_value_col_spec [numSmall, numBig]).1 numBig (by decide)

/-! Evaluation lemmas for the script pipeline. -/

/-- When fewer than 2 groups survive, the script shows the warning of
app.py line 89 and stops (line 90). -/
lemma script_of_short {τ : Type} (anova : List (List ℚ) → ℚ × ℚ)
    (tukey : List (Option ℚ) → List (Option String) → Except String τ)
    (rows : List Row) (h : (groups rows).length < 2) :
    script anova tukey rows = [Msg.warnNotEnoughGroups] := by
  simp only [script, if_pos h]

/-- Trace of a run with a non-significant p-value. -/
lemma script_of_not_sig {τ : Type} {anova : List (List ℚ) → ℚ × ℚ}
    {tukey : List (Option ℚ) → List (Option String) → Except String τ}
    {rows : List Row} {f p : ℚ} (h2 : 2 ≤ (groups rows).length)
    (ha : anova (groups rows) = (f, p)) (hp : ¬ p < 1/20) :
    script anova tukey rows =
      [Msg.fStatLine f, Msg.pValueLine p, Msg.noSigDetected,
       Msg.tukeyNotRequired, Msg.interpNoSig p] := by
  simp only [script, if_neg (by omega : ¬ (groups rows).length < 2), ha,
    if_neg hp]
  rfl

/-- Trace of a significant run whose Tukey call succeeds. -/
lemma script_of_sig_ok {τ : Type} {anova : List (List ℚ) → ℚ × ℚ}
    {tukey : List (Option ℚ) → List (Option String) → Except String τ}
    {rows : List Row} {f p : ℚ} {t : τ} (h2 : 2 ≤ (groups rows).length)
    (ha : anova (groups rows) = (f, p)) (hp : p < 1/20)
    (ht : tukey (tukeyEndog rows) (tukeyGroupLabels rows) = .ok t) :
    script anova tukey rows =
      [Msg.fStatLine f, Msg.pValueLine p, Msg.sigDetected,
       Msg.tukeySummary t, Msg.interpSig p] := by
  simp only [script, if_neg (by omega : ¬ (groups rows).length < 2), ha,
    if_pos hp, ht]
  rfl

/-- Trace of a significant run whose Tukey call raises: the exception is
caught by the `try/except` of app.py lines 127-132 and the run continues. -/
lemma script_of_sig_err {τ : Type} {anova : List (List ℚ) → ℚ × ℚ}
    {tukey : List (Option ℚ) → List (Option String) → Except String τ}
    {rows : List Row} {f p : ℚ} {e : String} (h2 : 2 ≤ (groups rows).length)
    (ha : anova (groups rows) = (f, p)) (hp : p < 1/20)
    (ht : tukey (tukeyEndog rows) (tukeyGroupLabels rows) = .error e) :
    script anova tukey rows =
      [Msg.fStatLine f, Msg.pValueLine p, Msg.sigDetected,
       Msg.tukeyFailed, Msg.interpSig p] := by
  simp only [script, if_neg (by omega : ¬ (groups rows).length < 2), ha,
    if_pos hp, ht]
  rfl

/-- C4: in every run that reaches the ANOVA computation, the significance
branch of app.py line 97, the Tukey gate of line 125 and the interpretation
branch of line 141 are each taken exactly when the computed p-value is
strictly below the fixed threshold 0.05. -/
theorem significance_branches_iff_p_lt {τ : Type}
    (anova : List (List ℚ) → ℚ × ℚ)
    (tukey : List (Option ℚ) → List (Option String) → Except String τ)
    (rows : List Row) (f p : ℚ) (h2 : 2 ≤ (groups rows).length)
    (ha : anova (groups rows) = (f, p)) :
    (Msg.sigDetected ∈ script anova tukey rows ↔ p < 1/20) ∧
    (Msg.noSigDetected ∈ script anova tukey rows ↔ ¬ p < 1/20) ∧
    (Msg.interpSig p ∈ script anova tukey rows ↔ p < 1/20) ∧
    (Msg.interpNoSig p ∈ script anova tukey rows ↔ ¬ p < 1/20) ∧
    (((∃ t, Msg.tukeySummary t ∈ script anova tukey rows) ∨
        Msg.tukeyFailed ∈ script anova tukey rows) ↔ p < 1/20) := by
  by_cases hp : p < 1/20
  · cases ht : tukey (tukeyEndog rows) (tukeyGroupLabels rows) with
    | ok t =>
      simp [script_of_sig_ok h2 ha hp ht, hp]
      rw [← one_div]
      exact hp
    | error e =>
      simp [script_of_sig_err h2 ha hp ht, hp]
      rw [← one_div]
      exact hp
  · simp [script_of_not_sig h2 ha hp, hp]
    rw [← one_div]
    exact not_lt.mp hp

/-- A concrete two-group dataset with no missing entries. -/
def exRun : List Row :=
  [⟨some "A", some 1⟩, ⟨some "A", some 2⟩, ⟨some "B", some 3⟩,
   ⟨some "B", some 4⟩]

/-- C4, witness for `significance_branches_iff_p_lt` on `exRun` with a
backend reporting p-value 0. -/
theorem significance_branches_iff_p_lt_witness :
    (Msg.sigDetected ∈ script (τ := Unit) (fun _ => (1, 0)) (fun _ _ => .ok ()) exRun ↔
      (0 : ℚ) < 1/20) ∧
    (Msg.noSigDetected ∈ script (τ := Unit) (fun _ => (1, 0)) (fun _ _ => .ok ()) exRun ↔
      ¬ (0 : ℚ) < 1/20) ∧
    (Msg.interpSig 0 ∈ script (τ := Unit) (fun _ => (1, 0)) (fun _ _ => .ok ()) exRun ↔
      (0 : ℚ) < 1/20) ∧
    (Msg.interpNoSig 0 ∈ script (τ := Unit) (fun _ => (1, 0)) (fun _ _ => .ok ()) exRun ↔
      ¬ (0 : ℚ) < 1/20) ∧
    (((∃ t, Msg.tukeySummary t ∈ script (τ := Unit) (fun _ => (1, 0)) (fun _ _ => .ok ()) exRun) ∨
        Msg.tukeyFailed ∈ script (τ := Unit) (fun _ => (1, 0)) (fun _ _ => .ok ()) exRun) ↔
      (0 : ℚ) < 1/20) :=
  significance_branches_iff_p_lt (fun _ => (1, 0)) (fun _ _ => .ok ()) exRun 1 0
    (by decide) rfl

/-- C5: when the ANOVA p-value is not below 0.05, the Tukey computation is
not executed — the trace does not depend on the Tukey backend at all — and
the explicit not-applicable message of app.py line 134 is shown instead;
no Tukey summary and no Tukey failure message appear. -/
theorem tukey_gated_on_significance {τ : Type}
    (anova : List (List ℚ) → ℚ × ℚ)
    (tukey₁ tukey₂ : List (Option ℚ) → List (Option String) → Except String τ)
    (rows : List Row) (f p : ℚ) (h2 : 2 ≤ (groups rows).length)
    (ha : anova (groups rows) = (f, p)) (hp : ¬ p < 1/20) :
    script anova tukey₁ rows = script anova tukey₂ rows ∧
    Msg.tukeyNotRequired ∈ script anova tukey₁ rows ∧
    (∀ t, Msg.tukeySummary t ∉ script anova tukey₁ rows) ∧
    Msg.tukeyFailed ∉ script anova tukey₁ rows := by
  rw [script_of_not_sig h2 ha hp, script_of_not_sig h2 ha hp]
  simp

/-- C5, witness for `tukey_gated_on_significance` on `exRun` with a backend
reporting p-value 6/100. -/
theorem tukey_gated_on_significance_witness :
    script (τ := Unit) (fun _ => (1, 6/100)) (fun _ _ => .ok ()) exRun =
      script (τ := Unit) (fun _ => (1, 6/100)) (fun _ _ => .error "boom") exRun ∧
    Msg.tukeyNotRequired ∈
      script (τ := Unit) (fun _ => (1, 6/100)) (fun _ _ => .ok ()) exRun ∧
    (∀ t, Msg.tukeySummary t ∉
      script (τ := Unit) (fun _ => (1, 6/100)) (fun _ _ => .ok ()) exRun) ∧
    Msg.tukeyFailed ∉
      script (τ := Unit) (fun _ => (1, 6/100)) (fun _ _ => .ok ()) exRun :=
  tukey_gated_on_significance (fun _ => (1, 6/100)) _ _ exRun 1 (6/100)
    (by decide) rfl (by norm_num)

/-- C6: when fewer than 2 groups survive the grouping step, the script
reports the choose-different-columns warning of app.py line 89 and stops:
the trace is exactly that warning, it does not depend on the ANOVA or Tukey
backends (neither is invoked), and no F-statistic line is produced. -/
theorem insufficient_groups_stops {τ : Type}
    (anova₁ anova₂ : List (List ℚ) → ℚ × ℚ)
    (tukey₁ tukey₂ : List (Option ℚ) → List (Option String) → Except String τ)
    (rows : List Row) (h : (groups rows).length < 2) :
    script anova₁ tukey₁ rows = [Msg.warnNotEnoughGroups] ∧
    script anova₁ tukey₁ rows = script anova₂ tukey₂ rows ∧
    ∀ f, Msg.fStatLine f ∉ script anova₁ tukey₁ rows := by
  rw [script_of_short anova₁ tukey₁ rows h, script_of_short anova₂ tukey₂ rows h]
  simp

/-- A dataset whose only label group is `A`. -/
def exOneGroup : List Row :=
  [⟨some "A", some 1⟩, ⟨some "A", some 2⟩, ⟨some "A", some 3⟩]

/-- C6, witness for `insufficient_groups_stops` on the one-group dataset
`exOneGroup`. -/
theorem insufficient_groups_stops_witness :
    script (τ := Unit) (fun _ => (1, 0)) (fun _ _ => .ok ()) exOneGroup =
      [Msg.warnNotEnoughGroups] ∧
    script (τ := Unit) (fun _ => (1, 0)) (fun _ _ => .ok ()) exOneGroup =
      script (τ := Unit) (fun _ => (2, 1)) (fun _ _ => .error "x") exOneGroup ∧
    ∀ f, Msg.fStatLine f ∉
      script (τ := Unit) (fun _ => (1, 0)) (fun _ _ => .ok ()) exOneGroup :=
  insufficient_groups_stops _ _ _ _ exOneGroup (by decide)

/-- C9: when the run is significant and the Tukey backend raises, the
exception is caught by app.py lines 127-132: the trace still contains the
already-reported ANOVA lines unchanged, shows the could-not-compute warning,
and continues to the interpretation step — no crash, no lost ANOVA result. -/
theorem tukey_failure_recovered {τ : Type}
    (anova : List (List ℚ) → ℚ × ℚ)
    (tukey : List (Option ℚ) → List (Option String) → Except String τ)
    (rows : List Row) (f p : ℚ) (e : String)
    (h2 : 2 ≤ (groups rows).length) (ha : anova (groups rows) = (f, p))
    (hp : p < 1/20)
    (ht : tukey (tukeyEndog rows) (tukeyGroupLabels rows) = .error e) :
    script anova tukey rows =
      [Msg.fStatLine f, Msg.pValueLine p, Msg.sigDetected,
       Msg.tukeyFailed, Msg.interpSig p] :=
  script_of_sig_err h2 ha hp ht

/-- C9, witness for `tukey_failure_recovered` on `exRun` with a failing
Tukey backend. -/
theorem tukey_failure_recovered_witness :
    script (τ := Unit) (fun _ => (1, 0)) (fun _ _ => .error "boom") exRun =
      [Msg.fStatLine 1, Msg.pValueLine 0, Msg.sigDetected,
       Msg.tukeyFailed, Msg.interpSig 0] :=
  tukey_failure_recovered (fun _ => (1, 0)) (fun _ _ => .error "boom") exRun 1 0
    "boom" (by decide) rfl (by norm_num) rfl

/-! Permutation invariance of the ANOVA evaluator. -/

lemma totalCount_perm {gs gs' : List (List ℚ)} (h : gs.Perm gs') :
    totalCount gs = totalCount gs' :=
  (h.map List.length).sum_eq

lemma totalSum_perm {gs gs' : List (List ℚ)} (h : gs.Perm gs') :
    totalSum gs = totalSum gs' :=
  (h.map List.sum).sum_eq

lemma grandMean_perm {gs gs' : List (List ℚ)} (h : gs.Perm gs') :
    grandMean gs = grandMean gs' := by
  rw [grandMean, grandMean, totalSum_perm h, totalCount_perm h]

lemma withinSS_perm {gs gs' : List (List ℚ)} (h : gs.Perm gs') :
    withinSS gs = withinSS gs' :=
  (h.map _).sum_eq

lemma betweenSS_perm {gs gs' : List (List ℚ)} (h : gs.Perm gs') :
    betweenSS gs = betweenSS gs' := by
  rw [betweenSS, betweenSS, grandMean_perm h]
  exact (h.map _).sum_eq

/-- C8: the ANOVA evaluation is invariant under permutation of its group
arguments — a permuted group list yields the same outcome (same
F-statistic and p-value, or the same failure). -/
theorem f_oneway_perm_invariant (fcdf : ℕ → ℕ → ℚ → ℚ)
    (gs gs' : List (List ℚ)) (_h2 : 2 ≤ gs.length) (h : gs.Perm gs') :
    f_oneway fcdf gs = f_oneway fcdf gs' := by
  rw [f_oneway, f_oneway, h.length_eq, totalCount_perm h, withinSS_perm h,
    betweenSS_perm h]

/-- C8, witness for `f_oneway_perm_invariant` on two concrete groups. -/
theorem f_oneway_perm_invariant_witness :
    f_oneway (fun _ _ _ => 0) [[1, 2], [3, 4]] =
      f_oneway (fun _ _ _ => 0) [[3, 4], [1, 2]] :=
  f_oneway_perm_invariant (fun _ _ _ => 0) _ _ (by decide) (by decide)

/-- C7, counterexample: two singleton groups have zero within-group sum of
squares and positive between-group sum of squares, yet the evaluation fails
(within-group degrees of freedom are zero) instead of returning the
sentinel (+infinity, 0). -/
theorem f_oneway_singletons_cex :
    2 ≤ ([[(1 : ℚ)], [2]] : List (List ℚ)).length ∧
    withinSS [[(1 : ℚ)], [2]] = 0 ∧
    0 < betweenSS [[(1 : ℚ)], [2]] ∧
    f_oneway (fun _ _ _ => 0) [[(1 : ℚ)], [2]] =
      .error .degenerateVariance := by
  refine ⟨by decide, ?_, ?_, by decide⟩
  · norm_num [withinSS, groupMean]
  · norm_num [betweenSS, groupMean, grandMean, totalSum, totalCount]

/-- C7, amended: whenever at least 2 groups are supplied, the within-group
degrees of freedom are positive (total observations exceed the number of
groups), the within-group sum of squares is zero and the between-group sum
of squares is positive, the evaluation returns the sentinel F = +infinity
(encoded `none`) with p-value 0, raising no error. -/
theorem f_oneway_sentinel (fcdf : ℕ → ℕ → ℚ → ℚ) (gs : List (List ℚ))
    (h2 : 2 ≤ gs.length) (hdf : gs.length < totalCount gs)
    (hw : withinSS gs = 0) (hb : 0 < betweenSS gs) :
    f_oneway fcdf gs = .ok (none, 0) := by
  rw [f_oneway, if_neg (by omega), if_neg (by omega), if_pos hw, if_pos hb]

/-- C7, witness for `f_oneway_sentinel`: two internally constant groups of
size 2 with distinct means. -/
theorem f_oneway_sentinel_witness :
    withinSS [[(1 : ℚ), 1], [2, 2]] = 0 ∧
    0 < betweenSS [[(1 : ℚ), 1], [2, 2]] ∧
    f_oneway (fun _ _ _ => 0) [[(1 : ℚ), 1], [2, 2]] = .ok (none, 0) := by
  have hw : withinSS [[(1 : ℚ), 1], [2, 2]] = 0 := by
    norm_num [withinSS, groupMean]
  have hb : 0 < betweenSS [[(1 : ℚ), 1], [2, 2]] := by
    norm_num [betweenSS, groupMean, grandMean, totalSum, totalCount]
  exact ⟨hw, hb, f_oneway_sentinel _ _ (by decide) (by decide) hw hb⟩

/-! Comparison of the data handed to the ANOVA call (app.py line 86) with
the data handed to the Tukey call (app.py line 128). -/

lemma filterMap_ite_eq_map_filter {α : Type u} {β : Type v} (p : α → Prop)
    [DecidablePred p] (f : α → β) (l : List α) :
    (l.filterMap fun a => if p a then some (f a) else none) =
      (l.filter fun a => decide (p a)).map f := by
  induction l with
  | nil => rfl
  | cons a l ih =>
    by_cases h : p a <;>
      simp [List.filterMap_cons, List.filter_cons, h, ih]

/-- The groupby partitions for a duplicate-free key list jointly form a
sub-multiset of the row list. -/
lemma flatten_rowsFor_le :
    ∀ ks : List String, ks.Nodup → ∀ rows : List Row,
      (((ks.map fun k => rowsFor rows k).flatten : List Row) : Multiset Row) ≤
        ↑rows := by
  intro ks
  induction ks with
  | nil => intro _ rows; simp
  | cons k ks ih =>
    intro hnd rows
    rw [List.nodup_cons] at hnd
    obtain ⟨hk, hnd⟩ := hnd
    have hrest : (ks.map fun q => rowsFor rows q) =
        ks.map fun q => rowsFor (rows.filter fun r => ¬ r.label = some k) q := by
      apply List.map_congr_left
      intro q hq
      have hne : q ≠ k := fun hEq => hk (hEq ▸ hq)
      rw [rowsFor, rowsFor, List.filter_filter]
      apply List.filter_congr
      intro r _
      by_cases h1 : r.label = some q
      · have h2 : ¬ r.label = some k := by
          rw [h1]
          intro hc
          exact hne (Option.some_inj.mp hc)
        simp [h1, h2, hne]
      · simp [h1]
    simp only [List.map_cons, List.flatten_cons]
    rw [hrest]
    have hle := ih hnd (rows.filter fun r => ¬ r.label = some k)
    have hsplit : (↑(rowsFor rows k) : Multiset Row) +
        ↑(rows.filter fun r => ¬ r.label = some k) = ↑rows := by
      have hfan := Multiset.filter_add_not
        (fun r : Row => r.label = some k) (↑rows : Multiset Row)
      exact hfan
    calc ((rowsFor rows k ++
            (ks.map fun q =>
              rowsFor (rows.filter fun r => ¬ r.label = some k) q).flatten :
            List Row) : Multiset Row)
        = ↑(rowsFor rows k) +
            ↑((ks.map fun q =>
              rowsFor (rows.filter fun r => ¬ r.label = some k) q).flatten) :=
          rfl
      _ ≤ ↑(rowsFor rows k) + ↑(rows.filter fun r => ¬ r.label = some k) :=
          add_le_add_left hle _
      _ = ↑rows := hsplit

/-- The multiset of observations fed to the ANOVA call is contained in the
multiset of non-missing entries of the raw value column. -/
lemma groups_flatten_le (rows : List Row) :
    (((groups rows).flatten : List ℚ) : Multiset ℚ) ≤
      ↑(rows.filterMap Row.value) := by
  have hg : groups rows =
      ((groupKeys rows).filter fun k =>
        decide (1 < (rowsFor rows k).length)).map fun k => valuesFor rows k := by
    rw [groups]
    exact filterMap_ite_eq_map_filter _ _ _
  have hnd : ((groupKeys rows).filter fun k =>
      decide (1 < (rowsFor rows k).length)).Nodup :=
    List.Nodup.filter _ (List.nodup_dedup _)
  have hle := flatten_rowsFor_le _ hnd rows
  have hcomm : (((groupKeys rows).filter fun k =>
        decide (1 < (rowsFor rows k).length)).map fun k =>
          valuesFor rows k).flatten =
      List.filterMap Row.value
        (((groupKeys rows).filter fun k =>
          decide (1 < (rowsFor rows k).length)).map fun k =>
            rowsFor rows k).flatten := by
    rw [List.filterMap_flatten, List.map_map]
    rfl
  rw [hg, hcomm]
  exact Multiset.filterMap_le_filterMap Row.value hle

/-- C3, counterexample: on `exC3` the non-missing observations handed to
the Tukey call (the raw value column of app.py line 128) differ from the
observations the ANOVA call received (the filtered groups of line 86): the
singleton group `C` is present in the former and absent from the latter. -/
theorem tukey_unfiltered_cex :
    ¬ ((((tukeyEndog exC3).filterMap id : List ℚ) : Multiset ℚ) =
        (((groups exC3).flatten : List ℚ) : Multiset ℚ)) := by
  decide

/-- C3, amended: the Tukey call of app.py line 128 receives the raw,
unfiltered columns — neither the missing-value removal nor the exclusion
of raw partitions of size < 2 is re-applied.  What does hold for every
dataset: the observations the ANOVA call received form a sub-multiset of
the non-missing entries handed to Tukey. -/
theorem anova_groups_submultiset_tukey (rows : List Row) :
    (((groups rows).flatten : List ℚ) : Multiset ℚ) ≤
      ↑((tukeyEndog rows).filterMap id) := by
  have h : (tukeyEndog rows).filterMap id = rows.filterMap Row.value := by
    rw [tukeyEndog, List.filterMap_map]
    rfl
  rw [h]
  exact groups_flatten_le rows

end AnovaApp
